import Mathlib

set_option maxRecDepth 20000
set_option maxHeartbeats 1000000

/-!
Verification of the MYOstack GUI acquisition pipeline (`MYOstack_GUI.py`).

Shallow embedding conventions: Python machine integers are modelled as `ℤ`/`ℕ`,
Python floats as `ℚ` (exact arithmetic), Python strings as `List Char`.
Fields and helper functions keep the source's names where Lean allows it.
-/

/-- Sampling frequency, `self.fs = 1001` (Hz) from `GUI.initUI`. -/
def fs : ℚ := 1001

/-- Time between two samples, `self.dt = 1/self.fs`. -/
def dt : ℚ := 1 / fs

/-- Ring-buffer capacity `self.dataWidth = int((self.timeWidth + 0.5) * self.fs)`
with `timeWidth = 10` and `fs = 1001`, i.e. `int(10510.5) = 10510`. -/
def dataWidth : ℕ := 10510

/-- Python `int()` applied to a real (float) value: truncation toward zero. -/
def pyInt (q : ℚ) : ℤ := if q < 0 then -((-q).floor) else q.floor

/-- Normalise a Python slice endpoint to an absolute index into a list of
length `len`: nonnegative endpoints are clamped above by `len`, negative
endpoints count from the end and are clamped below by `0`. -/
def pyIdx (len : ℕ) (i : ℤ) : ℕ :=
  if 0 ≤ i then min i.toNat len else (max 0 ((len : ℤ) + i)).toNat

/-- Python slice `l[a:b]`. -/
def pySlice {α : Type} (l : List α) (a b : ℤ) : List α :=
  (l.take (pyIdx l.length b)).drop (pyIdx l.length a)

/-- Python slice `l[i:]`. -/
def pySliceFrom {α : Type} (l : List α) (i : ℤ) : List α :=
  l.drop (pyIdx l.length i)

/-- Python slice `l[0:i]`. -/
def pySliceTo {α : Type} (l : List α) (i : ℤ) : List α :=
  l.take (pyIdx l.length i)

/-- Python `msg.rfind("\r", 1)`: the largest index `j ≥ 1` at which the
character `'\r'` occurs, or `-1` when there is none. -/
def rfindCRfrom1 (l : List Char) : ℤ :=
  (List.range l.length).foldl
    (fun acc j => if 1 ≤ j ∧ l.getD j ' ' = '\r' then (j : ℤ) else acc) (-1)

/-- Python `s.isdigit()` restricted to ASCII: nonempty and all characters
are decimal digits. -/
def pyIsDigit (s : List Char) : Bool :=
  !s.isEmpty && s.all Char.isDigit

/-- Python `int(s)` on a string of decimal digits. -/
def strToNat (s : List Char) : ℕ :=
  s.foldl (fun a c => 10 * a + (c.toNat - 48)) 0

/-- Python `msg.split("\r\n")`: split on every occurrence of the two-character
separator, keeping empty pieces. -/
def splitOnCRLF : List Char → List (List Char)
  | [] => [[]]
  | '\r' :: '\n' :: rest => [] :: splitOnCRLF rest
  | c :: rest =>
    match splitOnCRLF rest with
    | [] => [[c]]
    | r :: rs => (c :: r) :: rs

/-- Python `st.split(";")`: split on every semicolon, keeping empty pieces. -/
def splitOnSemi : List Char → List (List Char)
  | [] => [[]]
  | ';' :: rest => [] :: splitOnSemi rest
  | c :: rest =>
    match splitOnSemi rest with
    | [] => [[c]]
    | r :: rs => (c :: r) :: rs

/-- The MYOstack protocol version selected in the `MYOstackVersionCheck`
combo box ("v1.0" / "v1.1" / "v2.0"). -/
inductive MYOstackVersion : Type
  | v10
  | v11
  | v20
deriving DecidableEq

/-- Reference offset selected in `GUI.readFromSerial` / `GUI.readFromFile`:
`ref = 2048` when the version text is "v1.0" or "v2.0", else (so for "v1.1")
`ref = 1024`. -/
def ref : MYOstackVersion → ℤ
  | .v10 => 2048
  | .v20 => 2048
  | .v11 => 1024

/-- Voltage coefficient selected in `GUI.readFromSerial` / `GUI.readFromFile`:
`3.25/4.094` when the version text is "v1.0" or "v2.0", else (so for "v1.1")
`3.25/1.024`. -/
def coefficient : MYOstackVersion → ℚ
  | .v10 => 3.25 / 4.094
  | .v20 => 3.25 / 4.094
  | .v11 => 3.25 / 1.024

/-- The stored scaled sample `(raw - ref) * coefficient / gain` from
`GUI.readFromSerial` line 708 (and `GUI.readFromFile` line 662). -/
def scaledValue (v : MYOstackVersion) (raw : ℤ) (gain : ℚ) : ℚ :=
  ((raw - ref v : ℤ) : ℚ) * coefficient v / gain

/-- State of the `MovingAverage` class (envelope detector): per-channel
three cascaded EMA accumulators `MA`, smoothing factor `MA_alpha`, last
high-pass output `Y0` and input `X0`, and the sampling frequency `fs`. -/
structure MovingAverage : Type where
  MA : Fin 9 → Fin 3 → ℚ
  MA_alpha : ℚ
  Y0 : Fin 9 → ℚ
  X0 : Fin 9 → ℚ
  fs : ℚ

/-- `MovingAverage.__init__(fs)`: all accumulators and filter memory zero,
`MA_alpha = 0.95`. -/
def MovingAverage.init (f : ℚ) : MovingAverage :=
  { MA := fun _ _ => 0, MA_alpha := 0.95, Y0 := fun _ => 0, X0 := fun _ => 0, fs := f }

/-- One call of `MovingAverage.movingAverage(i, data)`. The analog-prewarped
cutoff `wa = 2.0*fs*tan(3.1416*1/fs)` involves `tan`, which is irrational; it
is abstracted as the parameter `wa` (all theorems below hold for every `wa`).
Returns the updated state and the returned envelope value `MA[i][2]*2`. -/
def movingAverage (wa : ℚ) (st : MovingAverage) (i : Fin 9) (data : ℚ) :
    MovingAverage × ℚ :=
  let HPF := (2 * st.fs * (data - st.X0 i) - (wa - 2 * st.fs) * st.Y0 i) / (2 * st.fs + wa)
  let d := if HPF < 0 then -HPF else HPF
  let m0 := (1 - st.MA_alpha) * d + st.MA_alpha * st.MA i 0
  let m1 := (1 - st.MA_alpha) * m0 + st.MA_alpha * st.MA i 1
  let m2 := (1 - st.MA_alpha) * m1 + st.MA_alpha * st.MA i 2
  ({ st with
      MA := Function.update st.MA i (fun j => if j = 0 then m0 else if j = 1 then m1 else m2),
      Y0 := Function.update st.Y0 i HPF,
      X0 := Function.update st.X0 i data },
   m2 * 2)

/-- Feed a sequence of scaled samples of channel `i` through the per-sample
envelope update, collecting the returned envelope values. -/
def movingAverageRun (wa : ℚ) (i : Fin 9) (st : MovingAverage) : List ℚ → List ℚ
  | [] => []
  | x :: xs =>
    let p := movingAverage wa st i x
    p.2 :: movingAverageRun wa i p.1 xs

/-- The mutable state of the `GUI` object that the acquisition pipeline
touches: write cursor `l`, time stamps `Time`, raw ring buffers `Data`,
envelope buffers `DataEnvelope`, the envelope detector state (`movAvg`, the
source's `self.MovingAverage`), spectral state `FFT`, the retained serial
fragment `msgEnd` (`self.msg_end`), the new-sample counter `msLen`
(`self.ms_len`), the scroll-bar position `sliderValue` (`self.slider.value()`)
and the playback cursor `sliderpos` (`self.sliderpos`). -/
structure GUIState : Type where
  l : ℕ
  Time : List ℚ
  Data : Fin 9 → List ℚ
  DataEnvelope : Fin 9 → List ℚ
  movAvg : MovingAverage
  FFT : Fin 9 → List ℚ
  msgEnd : List Char
  msLen : ℕ
  sliderValue : ℤ
  sliderpos : ℤ

/-- `GUI.refresh()` (lines 422-431): zero `l`, `Time`, `Data`, `DataEnvelope`,
a fresh `MovingAverage(fs)`, zero `FFT`, `msg_end = bytearray([0])`,
`ms_len = 0`, and `slider.setValue(0)`.  `self.sliderpos` is not touched. -/
def refresh (st : GUIState) : GUIState :=
  { st with
      l := 0,
      Time := List.replicate dataWidth 0,
      Data := fun _ => List.replicate dataWidth 0,
      DataEnvelope := fun _ => List.replicate dataWidth 0,
      movAvg := MovingAverage.init fs,
      FFT := fun _ => List.replicate 2000 0,
      msgEnd := [Char.ofNat 0],
      msLen := 0,
      sliderValue := 0 }

/-- A freshly refreshed session state (the state right after `refresh()`). -/
def initGUIState : GUIState :=
  { l := 0,
    Time := List.replicate dataWidth 0,
    Data := fun _ => List.replicate dataWidth 0,
    DataEnvelope := fun _ => List.replicate dataWidth 0,
    movAvg := MovingAverage.init fs,
    FFT := fun _ => List.replicate 2000 0,
    msgEnd := [Char.ofNat 0],
    msLen := 0,
    sliderValue := 0,
    sliderpos := 0 }

/-- Processing of one row `st` of the serial text (`GUI.readFromSerial`
lines 700-726, recording output omitted): a row is handled only when it has
exactly 9 semicolon-separated fields; then the cursor wraps at `dataWidth`,
each field that `isdigit()` stores its scaled value and every other field
stores `0`, the timestamp advances by `dt` from `Time[l-1]` (Python index
`-1` wraps to the end), and `l` and `ms_len` advance by one. -/
def processRow (v : MYOstackVersion) (gain : Fin 9 → ℚ) (st : GUIState)
    (fields : List (List Char)) : GUIState :=
  if fields.length = 9 then
    let l0 := if st.l = dataWidth then 0 else st.l
    { st with
        Data := fun i =>
          (st.Data i).set l0
            (if pyIsDigit (fields.getD i.val []) then
                scaledValue v (strToNat (fields.getD i.val [])) (gain i)
              else 0),
        Time := st.Time.set l0 (st.Time.getD ((l0 + dataWidth - 1) % dataWidth) 0 + dt),
        l := l0 + 1,
        msLen := st.msLen + 1 }
  else st

/-- One call of `GUI.readFromSerial` (lines 690-726) on a decoded serial
chunk: when the chunk has at least two characters, remember the tail from the
last `"\r"` (found from index 1) in `msg_end`, stitch the previously retained
fragment in front of the truncated chunk when the write cursor satisfies
`self.l > 2`, split into rows on `"\r\n"` and process each row. -/
def readFromSerial (v : MYOstackVersion) (gain : Fin 9 → ℚ) (st : GUIState)
    (chunk : List Char) : GUIState :=
  if 2 ≤ chunk.length then
    let n := rfindCRfrom1 chunk
    let msgBegin := st.msgEnd
    let st1 := { st with msgEnd := pySliceFrom chunk n }
    let msg := if 2 < st.l then msgBegin ++ pySliceTo chunk n else chunk
    (splitOnCRLF msg).foldl (fun s row => processRow v gain s (splitOnSemi row)) st1
  else st

/-- Decoder that follows claim C7's words instead of the source: the stitching
of the retained fragment is exempted for the very first two serial-read calls
of the session (`callIdx ≤ 2`) and applied on every later call, irrespective
of the write cursor. -/
def readFromSerialSpecC7 (v : MYOstackVersion) (gain : Fin 9 → ℚ) (callIdx : ℕ)
    (st : GUIState) (chunk : List Char) : GUIState :=
  if 2 ≤ chunk.length then
    let n := rfindCRfrom1 chunk
    let msgBegin := st.msgEnd
    let st1 := { st with msgEnd := pySliceFrom chunk n }
    let msg := if 2 < callIdx then msgBegin ++ pySliceTo chunk n else chunk
    (splitOnCRLF msg).foldl (fun s row => processRow v gain s (splitOnSemi row)) st1
  else st

/-- The unroll of channel `i`'s ring buffer into chronological order
(`GUI.updateListening` line 587):
`np.concatenate((self.Data[i][self.l:self.dataWidth], self.Data[i][0:self.l]))`.
It reads the state and writes only a local array, so the state is returned
unchanged. -/
def unrollOp (st : GUIState) (i : Fin 9) : List ℚ × GUIState :=
  (((st.Data i).take dataWidth).drop st.l ++ (st.Data i).take st.l, st)

/-- Clamping of the band-pass low cutoff (`GUI.updateListening` line 545):
`if passLowFreq.value() > passHighFreq.value(): passLowFreq.setValue(high)`. -/
def passLowClamped (low high : ℤ) : ℤ :=
  if high < low then high else low

/-- The band-pass stage of `GUI.updateListening` (lines 545-547 and 597-598):
when the band-pass checkbox is enabled the 4th-order Butterworth filter
(`scipy.signal.butter` + `lfilter`, external code abstracted as the parameter
`butterF`) is applied to the unrolled window with the clamped cutoffs; when it
is disabled the window is left unchanged. There is no other branch. -/
def bandpassStage (butterF : ℤ → ℤ → List ℚ → List ℚ) (enabled : Bool)
    (low high : ℤ) (data : List ℚ) : List ℚ :=
  if enabled then butterF (passLowClamped low high) high data else data

/-- The slice of the filtered unrolled window handed to the FFT
(`GUI.updateListening` line 628): `Data[i][-2001:-1]`. -/
def fftInput (w : List ℚ) : List ℚ :=
  pySlice w (-2001) (-1)

/-- One spectral update of `GUI.updateListening` (lines 628-629):
`Y[i] = abs(fft(Data[i][-2001:-1]))/2000` followed by
`FFT[i] = (1-0.5)*Y[i] + 0.5*FFT[i]`. The DFT magnitude
`abs(fft(.))` (external `scipy.fftpack` code) is abstracted as the
length-preserving parameter `dftAbs`; the elementwise numpy expressions become
`map` and `zipWith`. -/
def spectralUpdate (dftAbs : List ℚ → List ℚ) (w fftPrev : List ℚ) : List ℚ :=
  let Y := (dftAbs (fftInput w)).map (fun a => a / 2000)
  List.zipWith (fun y p => (1 - 0.5) * y + 0.5 * p) Y fftPrev

/-- One iteration of the `while j < 100` loop of `GUI.readFromFile`
(lines 649-676): wrap the cursor, rewind everything at end of file, store the
unpacked row scaled, perform the scrub-jump reconciliation when the slider
diverges from the playback cursor, stamp the time, and advance the cursors.
`loadData` is the loaded binary blob as a list of 9-field rows and
`loadDataLen` the stored `self.loadDataLen`. -/
def readFromFileStep (v : MYOstackVersion) (gain : Fin 9 → ℚ)
    (loadData : List (Fin 9 → ℕ)) (loadDataLen : ℤ) (st : GUIState) : GUIState :=
  let st0 := if st.l = dataWidth then { st with l := 0 } else st
  let st1 :=
    if loadDataLen - 2 < st0.sliderpos then
      { refresh st0 with sliderpos := 0, sliderValue := 0 }
    else st0
  let row := loadData.getD st1.sliderpos.toNat (fun _ => 0)
  let st2 := { st1 with
    Data := fun i => (st1.Data i).set st1.l (scaledValue v (row i) (gain i)) }
  let st3 :=
    if st2.sliderValue ≠ pyInt ((st2.sliderpos : ℚ) / (loadDataLen : ℚ) * 100) then
      let newpos := st2.sliderpos +
        pyInt ((st2.sliderValue : ℚ) * (loadDataLen : ℚ) / 100 - (st2.sliderpos : ℚ))
      let r := refresh { st2 with sliderpos := newpos }
      { r with l := st2.l, Time := r.Time.set st2.l ((newpos : ℚ) * dt) }
    else st2
  let st4 := { st3 with
    Time := st3.Time.set st3.l ((st3.sliderpos : ℚ) * dt),
    l := st3.l + 1,
    msLen := st3.msLen + 1 }
  { st4 with
    sliderpos := st4.sliderpos + 1,
    sliderValue := pyInt (((st4.sliderpos + 1 : ℤ) : ℚ) / (loadDataLen : ℚ) * 100) }

/-- The write cursor used for the row about to be stored: `self.l`, wrapped to
`0` when it has reached `dataWidth`. -/
def wrapCursor (st : GUIState) : ℕ :=
  if st.l = dataWidth then 0 else st.l

/-- All nine gain boxes at their default value 1. -/
def gain1 : Fin 9 → ℚ := fun _ => 1

/-- The garbled row of claim C2. -/
def C2row : List Char := "12;xx;3;4;5;6;7;8;9".toList

/-- The garbled row of claim C2 as a received serial chunk. -/
def C2chunk : List Char := "12;xx;3;4;5;6;7;8;9\r\n".toList

/-- A valid all-100 row as in claim C1's scenario. -/
def C1row : List Char := "100;100;100;100;100;100;100;100;100".toList

/-- First serial chunk of the C7 run: three complete rows followed by the
partial row fragment `"10"`. -/
def C7chunk1 : List Char :=
  "5;5;5;5;5;5;5;5;5\r\n5;5;5;5;5;5;5;5;5\r\n5;5;5;5;5;5;5;5;5\r\n10".toList

/-- Second serial chunk of the C7 run: the continuation `"0;2;...;2"` that
completes the previous fragment to the row `"100;2;2;2;2;2;2;2;2"`. -/
def C7chunk2 : List Char := "0;2;2;2;2;2;2;2;2\r\n".toList

/-- A session state in which three rows have already been accepted. -/
def C7wstate : GUIState := { initGUIState with l := 3 }

/-- A session state with a nonzero playback cursor (and nonempty bookkeeping),
used against `refresh()`. -/
def C3state : GUIState := { initGUIState with l := 7, sliderValue := 3, sliderpos := 5 }

/-- A loaded playback blob of 50 all-zero rows (`loadDataLen = 50`). -/
def C10load : List (Fin 9 → ℕ) := List.replicate 50 (fun _ => 0)

/-- A playback state scrubbed backwards: the slider was dragged to 1 while the
playback cursor (uniquely) determines slider position 2. -/
def C10state : GUIState :=
  { initGUIState with l := 3, msgEnd := [], sliderValue := 1, sliderpos := 1 }

/-- A full-width filtered window whose last sample is `1` and all other
samples `0`. -/
def C5w : List ℚ := List.replicate 10509 0 ++ [1]

theorem get?_set_self {α : Type} (a : α) :
    ∀ (l : List α) (n : ℕ), n < l.length → (l.set n a).get? n = some a
  | _ :: _, 0, _ => rfl
  | [], n, h => absurd h (by simp)
  | _ :: t, n + 1, h => by simpa using get?_set_self a t n (by simpa using h)

theorem wrapCursor_lt (st : GUIState) (h : st.l ≤ dataWidth) :
    wrapCursor st < dataWidth := by
  unfold wrapCursor
  split
  · unfold dataWidth; omega
  · omega

theorem processRow_l (v : MYOstackVersion) (gain : Fin 9 → ℚ) (st : GUIState)
    (fields : List (List Char)) (hlen : fields.length = 9) :
    (processRow v gain st fields).l = wrapCursor st + 1 := by
  simp [processRow, hlen, wrapCursor]

theorem processRow_msLen (v : MYOstackVersion) (gain : Fin 9 → ℚ) (st : GUIState)
    (fields : List (List Char)) (hlen : fields.length = 9) :
    (processRow v gain st fields).msLen = st.msLen + 1 := by
  simp [processRow, hlen]

theorem processRow_data (v : MYOstackVersion) (gain : Fin 9 → ℚ) (st : GUIState)
    (fields : List (List Char)) (hlen : fields.length = 9) (i : Fin 9)
    (hD : (st.Data i).length = dataWidth) (hl : st.l ≤ dataWidth) :
    ((processRow v gain st fields).Data i).get? (wrapCursor st) =
      some (if pyIsDigit (fields.getD i.val []) then
              scaledValue v (strToNat (fields.getD i.val [])) (gain i)
            else 0) := by
  have hlt : wrapCursor st < (st.Data i).length := by
    rw [hD]; exact wrapCursor_lt st hl
  simp only [processRow, hlen, if_pos, wrapCursor] at *
  exact get?_set_self _ _ _ hlt

theorem processRow_time (v : MYOstackVersion) (gain : Fin 9 → ℚ) (st : GUIState)
    (fields : List (List Char)) (hlen : fields.length = 9)
    (hT : st.Time.length = dataWidth) (hl : st.l ≤ dataWidth) :
    ((processRow v gain st fields).Time).get? (wrapCursor st) =
      some (st.Time.getD ((wrapCursor st + dataWidth - 1) % dataWidth) 0 + dt) := by
  have hlt : wrapCursor st < st.Time.length := by
    rw [hT]; exact wrapCursor_lt st hl
  simp only [processRow, hlen, if_pos, wrapCursor] at *
  exact get?_set_self _ _ _ hlt

theorem zipWith_get?_some (f : ℚ → ℚ → ℚ) :
    ∀ (l1 l2 : List ℚ) (k : ℕ) (a b : ℚ), l1.get? k = some a → l2.get? k = some b →
      (List.zipWith f l1 l2).get? k = some (f a b)
  | [], _, _, _, _, h, _ => by simp at h
  | _ :: _, [], _, _, _, _, h => by simp at h
  | x :: xs, y :: ys, 0, a, b, h1, h2 => by
    simp at h1 h2
    simp [h1, h2]
  | x :: xs, y :: ys, k + 1, a, b, h1, h2 => by
    simpa using zipWith_get?_some f xs ys k a b (by simpa using h1) (by simpa using h2)

theorem get?_map_div2000 (f : ℚ → ℚ) :
    ∀ (l : List ℚ) (k : ℕ), (l.map f).get? k = (l.get? k).map f
  | [], _ => rfl
  | _ :: _, 0 => rfl
  | _ :: xs, k + 1 => get?_map_div2000 f xs k

theorem fftInput_concat (u : List ℚ) (a : ℚ) (hu : 2000 ≤ u.length) :
    fftInput (u ++ [a]) = u.drop (u.length - 2000) := by
  have hb : pyIdx (u ++ [a]).length (-1) = u.length := by
    simp [pyIdx, List.length_append]
  have ha : pyIdx (u ++ [a]).length (-2001) = u.length - 2000 := by
    simp [pyIdx, List.length_append]
    omega
  unfold fftInput pySlice
  rw [hb, ha, List.take_left]

theorem movingAverage_step_facts (wa : ℚ) (st : MovingAverage) (i : Fin 9) (x : ℚ)
    (h0 : 0 ≤ st.MA_alpha) (h1 : st.MA_alpha ≤ 1) (hMA : ∀ a b, 0 ≤ st.MA a b) :
    0 ≤ (movingAverage wa st i x).2
    ∧ (∀ a b, 0 ≤ (movingAverage wa st i x).1.MA a b)
    ∧ (movingAverage wa st i x).1.MA_alpha = st.MA_alpha := by
  have h1a : (0 : ℚ) ≤ 1 - st.MA_alpha := by linarith
  set HPF := (2 * st.fs * (x - st.X0 i) - (wa - 2 * st.fs) * st.Y0 i) / (2 * st.fs + wa)
    with hHPF
  have hd : 0 ≤ (if HPF < 0 then -HPF else HPF) := by
    split <;> linarith
  have hm0 : 0 ≤ (1 - st.MA_alpha) * (if HPF < 0 then -HPF else HPF)
      + st.MA_alpha * st.MA i 0 :=
    add_nonneg (mul_nonneg h1a hd) (mul_nonneg h0 (hMA i 0))
  have hm1 : 0 ≤ (1 - st.MA_alpha) * ((1 - st.MA_alpha) * (if HPF < 0 then -HPF else HPF)
      + st.MA_alpha * st.MA i 0) + st.MA_alpha * st.MA i 1 :=
    add_nonneg (mul_nonneg h1a hm0) (mul_nonneg h0 (hMA i 1))
  have hm2 : 0 ≤ (1 - st.MA_alpha) * ((1 - st.MA_alpha)
      * ((1 - st.MA_alpha) * (if HPF < 0 then -HPF else HPF) + st.MA_alpha * st.MA i 0)
      + st.MA_alpha * st.MA i 1) + st.MA_alpha * st.MA i 2 :=
    add_nonneg (mul_nonneg h1a hm1) (mul_nonneg h0 (hMA i 2))
  refine ⟨?_, ?_, rfl⟩
  · show 0 ≤ _ * 2
    rw [← hHPF]
    linarith
  · intro a b
    simp only [movingAverage]
    rw [← hHPF]
    by_cases hai : a = i
    · subst hai
      rw [Function.update_same]
      fin_cases b
      · simpa using hm0
      · simpa using hm1
      · simpa using hm2
    · rw [Function.update_noteq hai]
      exact hMA a b

theorem movingAverageRun_nonneg_aux (wa : ℚ) (i : Fin 9) :
    ∀ (xs : List ℚ) (st : MovingAverage), 0 ≤ st.MA_alpha → st.MA_alpha ≤ 1 →
      (∀ a b, 0 ≤ st.MA a b) → ∀ y ∈ movingAverageRun wa i st xs, 0 ≤ y
  | [], _, _, _, _ => by
    intro y hy
    simp [movingAverageRun] at hy
  | x :: xs, st, h0, h1, hMA => by
    intro y hy
    have hstep := movingAverage_step_facts wa st i x h0 h1 hMA
    rw [movingAverageRun] at hy
    rcases List.mem_cons.mp hy with h | h
    · exact h ▸ hstep.1
    · exact movingAverageRun_nonneg_aux wa i xs (movingAverage wa st i x).1
        (hstep.2.2 ▸ h0) (hstep.2.2 ▸ h1) hstep.2.1 y h

theorem initGUIState_data_length (i : Fin 9) :
    (initGUIState.Data i).length = dataWidth := by
  show (List.replicate dataWidth (0 : ℚ)).length = dataWidth
  simp

theorem initGUIState_time_length : initGUIState.Time.length = dataWidth := by
  show (List.replicate dataWidth (0 : ℚ)).length = dataWidth
  simp

/-- C1 (amended): for every accepted sample row and every channel `i` whose
field parses as a nonnegative decimal integer, the stored scaled value equals
`(raw - ref) * coefficient / gain_i`, where the constants fixed by the
selected protocol version are: `ref = 2048` and `coefficient = 3.25/4.094`
for versions v1.0 and v2.0, and `ref = 1024` and `coefficient = 3.25/1.024`
for version v1.1 (not, as claimed, 2048 and 3.25/4.094 for v1.1). -/
theorem C1_scaling_amended (v : MYOstackVersion) (gain : Fin 9 → ℚ) (st : GUIState)
    (fields : List (List Char)) (i : Fin 9) (s : List Char)
    (hlen : fields.length = 9) (hs : fields.getD i.val [] = s)
    (hdig : pyIsDigit s = true)
    (hl : st.l ≤ dataWidth) (hD : (st.Data i).length = dataWidth) :
    ((processRow v gain st fields).Data i).get? (wrapCursor st) =
      some (scaledValue v (strToNat s) (gain i))
    ∧ scaledValue v (strToNat s) (gain i) =
        (((strToNat s : ℤ) : ℚ) - ((ref v : ℤ) : ℚ)) * coefficient v / gain i
    ∧ ref MYOstackVersion.v10 = 2048 ∧ ref MYOstackVersion.v20 = 2048
    ∧ ref MYOstackVersion.v11 = 1024
    ∧ coefficient MYOstackVersion.v10 = 3.25 / 4.094
    ∧ coefficient MYOstackVersion.v20 = 3.25 / 4.094
    ∧ coefficient MYOstackVersion.v11 = 3.25 / 1.024 := by
  refine ⟨?_, ?_, rfl, rfl, rfl, rfl, rfl, rfl⟩
  · rw [processRow_data v gain st fields hlen i hD hl, hs, hdig]
    simp
  · rw [scaledValue]
    push_cast
    ring

/-- C1 witness: the all-100 row under protocol v1.1 at gain 1 stores the
scaled value for raw 100 in channel 0. -/
theorem C1_scaling_witness :
    ((processRow MYOstackVersion.v11 gain1 initGUIState (splitOnSemi C1row)).Data 0).get? (wrapCursor initGUIState)
      = some (scaledValue MYOstackVersion.v11 (strToNat "100".toList) (gain1 0)) :=
  (C1_scaling_amended MYOstackVersion.v11 gain1 initGUIState (splitOnSemi C1row) 0
    ("100".toList) (by decide) (by decide) (by decide) (by decide)
    (initGUIState_data_length 0)).1

/-- C1 counterexample: under protocol v1.1, a raw value of 100 at gain 1
scales to `(100 - 1024) * 3.25/1.024 = -375375/128 ≈ -2932.6`, not to
`(100 - 2048) * 3.25/4.094 ≈ -1546.6` as the claim states. -/
theorem C1_scaling_counterexample :
    scaledValue MYOstackVersion.v11 100 1 = -375375 / 128
    ∧ scaledValue MYOstackVersion.v11 100 1 ≠ ((100 : ℚ) - 2048) * (3.25 / 4.094) / 1 := by
  constructor <;> norm_num [scaledValue, ref, coefficient]

/-- C2 (amended): a received row that splits into exactly 9 fields is never
dropped: the write cursor advances by exactly one, `ms_len` by one, and the
row's timestamp advances by exactly `dt`; each single field that is not a
nonnegative decimal integer stores 0 for its own channel — but fields of the
same row that do parse store their scaled values, so a partially garbled row
is not all-zero. -/
theorem C2_garbled_row_amended (v : MYOstackVersion) (gain : Fin 9 → ℚ)
    (st : GUIState) (fields : List (List Char))
    (hlen : fields.length = 9) (hl : st.l ≤ dataWidth)
    (hT : st.Time.length = dataWidth) :
    (processRow v gain st fields).l = wrapCursor st + 1
    ∧ (processRow v gain st fields).msLen = st.msLen + 1
    ∧ ((processRow v gain st fields).Time).get? (wrapCursor st) =
        some (st.Time.getD ((wrapCursor st + dataWidth - 1) % dataWidth) 0 + dt)
    ∧ ∀ i : Fin 9, (st.Data i).length = dataWidth →
        pyIsDigit (fields.getD i.val []) = false →
        ((processRow v gain st fields).Data i).get? (wrapCursor st) = some 0 := by
  refine ⟨processRow_l v gain st fields hlen, processRow_msLen v gain st fields hlen,
    processRow_time v gain st fields hlen hT hl, fun i hD hdig => ?_⟩
  rw [processRow_data v gain st fields hlen i hD hl, hdig]
  simp

/-- C2 witness: the garbled row `"12;xx;3;4;5;6;7;8;9"` advances the cursor by
one and stores 0 for channel 1 (whose field `"xx"` does not parse). -/
theorem C2_garbled_row_witness :
    (processRow MYOstackVersion.v20 gain1 initGUIState (splitOnSemi C2row)).l
      = wrapCursor initGUIState + 1
    ∧ ((processRow MYOstackVersion.v20 gain1 initGUIState (splitOnSemi C2row)).Data 1).get? (wrapCursor initGUIState)
      = some 0 := by
  have h := C2_garbled_row_amended MYOstackVersion.v20 gain1 initGUIState
    (splitOnSemi C2row) (by decide) (by decide) initGUIState_time_length
  exact ⟨h.1, h.2.2.2 1 (initGUIState_data_length 1) (by decide)⟩

/-- C2 counterexample: feeding the chunk `"12;xx;3;4;5;6;7;8;9\r\n"` to a
fresh session stores `(12 - 2048) * 3.25/4.094 = -3308500/2047 ≠ 0` for
channel 0 — the parseable field `"12"` is not zeroed, so not all 9 channel
values of the garbled row are 0 as the claim states. -/
theorem C2_garbled_row_counterexample :
    (splitOnSemi C2row).length = 9
    ∧ ((readFromSerial MYOstackVersion.v20 gain1 initGUIState C2chunk).Data 0).get? 0
        = some (scaledValue MYOstackVersion.v20 12 1)
    ∧ scaledValue MYOstackVersion.v20 12 1 = -3308500 / 2047
    ∧ scaledValue MYOstackVersion.v20 12 1 ≠ 0 := by
  refine ⟨by decide, by rfl, ?_, ?_⟩ <;> norm_num [scaledValue, ref, coefficient]

/-- C3 (amended): `refresh()` zeroes the raw-data buffers, envelope buffers
and spectral arrays of every channel, resets the write cursor `l` to 0,
reconstructs the envelope state as the exact zero-initialized state (all
`MA`, `Y0`, `X0` zero), zeroes the timestamps and the new-sample counter and
the slider widget value — but it preserves the playback cursor
`self.sliderpos` unchanged. -/
theorem C3_refresh_amended (st : GUIState) :
    (refresh st).l = 0
    ∧ (∀ i, (refresh st).Data i = List.replicate dataWidth 0)
    ∧ (∀ i, (refresh st).DataEnvelope i = List.replicate dataWidth 0)
    ∧ (∀ i, (refresh st).FFT i = List.replicate 2000 0)
    ∧ (refresh st).movAvg = MovingAverage.init fs
    ∧ (∀ i j, (refresh st).movAvg.MA i j = 0)
    ∧ (∀ i, (refresh st).movAvg.Y0 i = 0 ∧ (refresh st).movAvg.X0 i = 0)
    ∧ (refresh st).Time = List.replicate dataWidth 0
    ∧ (refresh st).msLen = 0
    ∧ (refresh st).sliderValue = 0
    ∧ (refresh st).sliderpos = st.sliderpos :=
  ⟨rfl, fun _ => rfl, fun _ => rfl, fun _ => rfl, rfl, fun _ _ => rfl,
   fun _ => ⟨rfl, rfl⟩, rfl, rfl, rfl, rfl⟩

/-- C3 counterexample: `refresh()` does not reset the playback cursor — from
a state with `sliderpos = 5` it returns with `sliderpos = 5`, not 0. -/
theorem C3_refresh_counterexample :
    (refresh C3state).sliderpos = 5 ∧ ((5 : ℤ) ≠ 0) :=
  ⟨rfl, by norm_num⟩

/-- C4 (amended): there is no Nyquist/no-op guard in the band-pass stage.
When the checkbox is enabled the Butterworth filter is always invoked: a low
cutoff above the high cutoff is first clamped down to the high cutoff (so the
filter runs on the degenerate equal-cutoff band), and otherwise the
configured cutoffs are passed through unchanged; the stage passes the window
through unchanged only when the checkbox is disabled. (The spin boxes
restrict both cutoffs to 10..500 Hz while `fs = 1001`, so `fs ≤ 2·high`
cannot arise from the UI.) -/
theorem C4_bandpass_amended (f : ℤ → ℤ → List ℚ → List ℚ) (low high : ℤ)
    (d : List ℚ) :
    bandpassStage f false low high d = d
    ∧ (high < low → bandpassStage f true low high d = f high high d)
    ∧ (low ≤ high → bandpassStage f true low high d = f low high d) := by
  refine ⟨rfl, fun h => ?_, fun h => ?_⟩
  · simp [bandpassStage, passLowClamped, h]
  · simp [bandpassStage, passLowClamped, not_lt.mpr h]

/-- C4 witness: with cutoffs low = 12 > high = 10, the enabled stage invokes
the filter on the clamped pair (10, 10) rather than passing data through. -/
theorem C4_bandpass_witness :
    bandpassStage (fun _ _ xs => xs.map (fun _ => (0 : ℚ))) true 12 10 [3]
      = (fun _ _ xs => xs.map (fun _ => (0 : ℚ))) 10 10 [3] ∧ (10 : ℤ) < 12 :=
  ⟨(C4_bandpass_amended (fun _ _ xs => xs.map (fun _ => (0 : ℚ))) 12 10 [3]).2.1
    (by norm_num), by norm_num⟩

/-- C4 counterexample: with low = high = 10 the claim's guard
`0 < low < high ∧ fs > 2·high` is violated, yet the enabled band-pass stage
is not a passthrough: it returns the filter's output (here a filter mapping
everything to 0 stands in for the external Butterworth code), not the input
window. -/
theorem C4_bandpass_counterexample :
    (¬ ((0 : ℤ) < 10 ∧ (10 : ℤ) < 10 ∧ 2 * 10 < 1001))
    ∧ bandpassStage (fun _ _ xs => xs.map (fun _ => (0 : ℚ))) true 10 10 [1] ≠ [1] := by
  constructor
  · norm_num
  · show ¬ ([0] = [1])
    norm_num

/-- C5 (amended): on every tick the spectral estimate of an active channel is
computed not from the last 2000 samples of the filtered unrolled window, but
from the 2000 samples that end at the window's second-to-last position (the
slice `[-2001:-1]` omits the newest sample); the magnitude of the external DFT
is normalized by 2000, blended as `FFT_new = (1-0.5)·|DFT| + 0.5·FFT_prev`
with β = 0.5, and the stored estimate has length exactly 2000 whenever the
previous estimate has length 2000. -/
theorem C5_spectral_amended (F : List ℚ → List ℚ)
    (hF : ∀ x, (F x).length = x.length)
    (u : List ℚ) (a : ℚ) (hu : 2000 ≤ u.length)
    (prev : List ℚ) (hprev : prev.length = 2000) :
    fftInput (u ++ [a]) = u.drop (u.length - 2000)
    ∧ (fftInput (u ++ [a])).length = 2000
    ∧ (spectralUpdate F (u ++ [a]) prev).length = 2000
    ∧ ∀ (k : ℕ) (y p : ℚ), (F (fftInput (u ++ [a]))).get? k = some y →
        prev.get? k = some p →
        (spectralUpdate F (u ++ [a]) prev).get? k
          = some ((1 - 0.5) * (y / 2000) + 0.5 * p) := by
  have h1 : fftInput (u ++ [a]) = u.drop (u.length - 2000) := fftInput_concat u a hu
  have h2 : (fftInput (u ++ [a])).length = 2000 := by
    rw [h1, List.length_drop]
    omega
  refine ⟨h1, h2, ?_, ?_⟩
  · rw [spectralUpdate, List.length_zipWith, List.length_map, hF, h2, hprev]
    exact min_self 2000
  · intro k y p hy hp
    rw [spectralUpdate]
    refine zipWith_get?_some _ _ _ _ _ _ ?_ hp
    rw [get?_map_div2000, hy]
    rfl

/-- C5 witness: for the identity standing in for the external DFT, a
full-width window of zeros ending in 1, and a zero previous estimate, the FFT
input is the 2000 samples ending one before the window's end and the updated
estimate has length 2000. -/
theorem C5_spectral_witness :
    fftInput (List.replicate 10509 (0 : ℚ) ++ [1])
      = (List.replicate 10509 (0 : ℚ)).drop ((List.replicate 10509 (0 : ℚ)).length - 2000)
    ∧ (spectralUpdate id (List.replicate 10509 (0 : ℚ) ++ [1])
        (List.replicate 2000 0)).length = 2000 := by
  have h := C5_spectral_amended id (fun _ => rfl) (List.replicate 10509 (0 : ℚ)) 1
    (by rw [List.length_replicate]; norm_num) (List.replicate 2000 0)
    (List.length_replicate 2000 0)
  exact ⟨h.1, h.2.2.1⟩

/-- C5 counterexample: for the full-width window that is zero everywhere
except for a final 1, the slice actually used (`[-2001:-1]`) is all zeros,
while the last 2000 samples of the window end in 1 — so the spectral input is
not "the last N = 2000 samples" as the claim states. -/
theorem C5_spectral_counterexample :
    fftInput C5w ≠ C5w.drop (C5w.length - 2000) := by
  have hlen : C5w.length = 10510 := by
    rw [show C5w = List.replicate 10509 (0 : ℚ) ++ [1] from rfl,
      List.length_append, List.length_replicate, List.length_singleton]
  have h1 : fftInput C5w = List.replicate 2000 (0 : ℚ) := by
    rw [show C5w = List.replicate 10509 (0 : ℚ) ++ [1] from rfl,
      fftInput_concat _ _ (by rw [List.length_replicate]; norm_num),
      List.length_replicate, List.drop_replicate]
  have h2 : C5w.drop (C5w.length - 2000) = List.replicate 1999 (0 : ℚ) ++ [1] := by
    rw [hlen, show C5w = List.replicate 10509 (0 : ℚ) ++ [1] from rfl,
      List.drop_append_eq_append_drop, List.drop_replicate, List.length_replicate]
    norm_num
  rw [h1, h2]
  intro h
  have hlast : (List.replicate 2000 (0 : ℚ)).getLast? = some 1 := by
    rw [h]
    exact List.getLast?_concat _
  rw [List.replicate_succ' 1999 (0 : ℚ), List.getLast?_concat] at hlast
  exact absurd (Option.some.inj hlast) (by norm_num)

/-- C7 (amended): the decoder's stitching of the retained trailing fragment is
governed by the shared write cursor, not by the call count: a serial-read call
prefixes the retained fragment exactly when `self.l > 2` at the start of the
call. Consequently the source decoder coincides with the claim's call-indexed
decoder exactly on calls whose index agrees with the cursor criterion. -/
theorem C7_stitching_amended (v : MYOstackVersion) (gain : Fin 9 → ℚ) (k : ℕ)
    (st : GUIState) (chunk : List Char) (h : 2 < st.l ↔ 2 < k) :
    readFromSerialSpecC7 v gain k st chunk = readFromSerial v gain st chunk := by
  unfold readFromSerial readFromSerialSpecC7
  simp only [h]

/-- C7 witness: on a state whose write cursor is 3 the source decoder behaves
exactly like the claim's decoder at call index 5. -/
theorem C7_stitching_witness :
    readFromSerialSpecC7 MYOstackVersion.v20 gain1 5 C7wstate C7chunk2
      = readFromSerial MYOstackVersion.v20 gain1 C7wstate C7chunk2 :=
  C7_stitching_amended MYOstackVersion.v20 gain1 5 C7wstate C7chunk2 (by decide)

/-- C7 counterexample: a first call that delivers three complete rows pushes
the write cursor to 3, so the second call of the session already stitches the
retained fragment "10" in front of its chunk and stores 100 for channel 0 —
whereas the claim's decoder, which exempts the first two calls, would parse
the unstitched row and store 0. The claim's exemption of "the very first two
calls" therefore does not describe the code. -/
theorem C7_stitching_counterexample :
    ((readFromSerial MYOstackVersion.v20 gain1
        (readFromSerial MYOstackVersion.v20 gain1 initGUIState C7chunk1)
        C7chunk2).Data 0).get? 3
      = some (scaledValue MYOstackVersion.v20 100 1)
    ∧ ((readFromSerialSpecC7 MYOstackVersion.v20 gain1 2
        (readFromSerialSpecC7 MYOstackVersion.v20 gain1 1 initGUIState C7chunk1)
        C7chunk2).Data 0).get? 3
      = some (scaledValue MYOstackVersion.v20 0 1)
    ∧ scaledValue MYOstackVersion.v20 100 1 ≠ scaledValue MYOstackVersion.v20 0 1 := by
  refine ⟨by rfl, by rfl, ?_⟩
  norm_num [scaledValue, ref, coefficient]

theorem getD_nonneg :
    ∀ (l : List ℚ) (n : ℕ), (∀ y ∈ l, 0 ≤ y) → 0 ≤ l.getD n 0
  | [], n, _ => by simp [List.getD_nil]
  | x :: xs, 0, h => by
    simpa [List.getD_cons_zero] using h x (List.mem_cons_self x xs)
  | x :: xs, n + 1, h => by
    simpa [List.getD_cons_succ] using
      getD_nonneg xs n (fun y hy => h y (List.mem_cons_of_mem x hy))

/-- C8: for every channel, every input sequence of scaled samples, every
high-pass coefficient and every smoothing factor α in [0,1], starting from
the zero-initialized envelope state, every envelope value produced by the
per-sample update (causal high-pass, rectification, three cascaded EMAs,
output `2·MA2`) is non-negative. -/
theorem C8_envelope_nonneg (wa alpha : ℚ) (i : Fin 9) (xs : List ℚ) (n : ℕ)
    (h0 : 0 ≤ alpha) (h1 : alpha ≤ 1) :
    0 ≤ (movingAverageRun wa i
          { MovingAverage.init fs with MA_alpha := alpha } xs).getD n 0 := by
  refine getD_nonneg _ n (movingAverageRun_nonneg_aux wa i xs _ ?_ ?_ ?_)
  · exact h0
  · exact h1
  · intro a b
    exact le_refl 0

/-- C8 witness: a concrete two-sample run with α = 0.95 yields a
non-negative envelope value. -/
theorem C8_envelope_nonneg_witness :
    0 ≤ (movingAverageRun 3 0
          { MovingAverage.init fs with MA_alpha := 0.95 } [1, -2]).getD 1 0 :=
  C8_envelope_nonneg 3 0.95 0 [1, -2] 1 (by norm_num) (by norm_num)

/-- C9: the unroll operation — the two-segment chronological concatenation
`[l:dataWidth] + [0:l]` of a channel's ring buffer — leaves the state
unchanged, so invoking it twice with no intervening append yields exactly
identical output sequences, and under the buffer invariants the output has
length exactly `dataWidth`. -/
theorem C9_unroll_idempotent (st : GUIState) (i : Fin 9) :
    (unrollOp (unrollOp st i).2 i).1 = (unrollOp st i).1
    ∧ ((st.Data i).length = dataWidth → st.l ≤ dataWidth →
        ((unrollOp st i).1).length = dataWidth) := by
  refine ⟨rfl, fun hD hl => ?_⟩
  show (((st.Data i).take dataWidth).drop st.l ++ (st.Data i).take st.l).length
      = dataWidth
  rw [List.length_append, List.length_drop, List.length_take, List.length_take,
    hD, min_self, min_eq_left hl, Nat.sub_add_cancel hl]

/-- C9 witness: on the freshly refreshed state the double unroll of channel 0
equals the single unroll and the unrolled window has length `dataWidth`. -/
theorem C9_unroll_idempotent_witness :
    (unrollOp (unrollOp initGUIState 0).2 0).1 = (unrollOp initGUIState 0).1
    ∧ ((unrollOp initGUIState 0).1).length = dataWidth := by
  have h := C9_unroll_idempotent initGUIState 0
  exact ⟨h.1, h.2 (initGUIState_data_length 0) (Nat.zero_le _)⟩

theorem readFromFileStep_scrub (v : MYOstackVersion) (gain : Fin 9 → ℚ)
    (loadData : List (Fin 9 → ℕ)) (L : ℤ) (st : GUIState)
    (hEOF : st.sliderpos ≤ L - 2)
    (hdet : st.sliderValue ≠ pyInt ((st.sliderpos : ℚ) / (L : ℚ) * 100)) :
    (readFromFileStep v gain loadData L st).l = wrapCursor st + 1
    ∧ (readFromFileStep v gain loadData L st).sliderpos
        = st.sliderpos + pyInt ((st.sliderValue : ℚ) * (L : ℚ) / 100 - (st.sliderpos : ℚ)) + 1
    ∧ (∀ i, (readFromFileStep v gain loadData L st).Data i = List.replicate dataWidth 0)
    ∧ (∀ i, (readFromFileStep v gain loadData L st).DataEnvelope i = List.replicate dataWidth 0)
    ∧ (∀ i, (readFromFileStep v gain loadData L st).FFT i = List.replicate 2000 0)
    ∧ (readFromFileStep v gain loadData L st).movAvg = MovingAverage.init fs
    ∧ (readFromFileStep v gain loadData L st).Time
        = (List.replicate dataWidth 0).set (wrapCursor st)
            ((((st.sliderpos + pyInt ((st.sliderValue : ℚ) * (L : ℚ) / 100 - (st.sliderpos : ℚ))) : ℤ) : ℚ) * dt) := by
  have h1 : ¬ (L - 2 < st.sliderpos) := not_lt.mpr hEOF
  unfold readFromFileStep wrapCursor refresh
  by_cases hw : st.l = dataWidth <;>
    simp [hw, h1, hdet, List.set_set]

/-- C10 (amended): when a playback scrub jump is detected (the slider value
diverging from the value derived from the playback cursor) and the end of the
file has not been reached, the iteration resets all raw/envelope/spectral
buffers and the envelope state via `refresh()` and preserves the ring-buffer
write cursor `l` across that reset (saved before and restored after, the only
state that survives the wipe) — but the playback cursor is set to
`sliderpos + int(slider_value·loadDataLen/100 − sliderpos)` (Python
truncation toward zero of the difference), which for backward jumps to a
fractional target is the ceiling, not `int(slider_value·loadDataLen/100)`;
the tail of the iteration then advances the cursors by one as usual. -/
theorem C10_scrub_amended (v : MYOstackVersion) (gain : Fin 9 → ℚ)
    (loadData : List (Fin 9 → ℕ)) (L : ℤ) (st : GUIState)
    (hEOF : st.sliderpos ≤ L - 2)
    (hdet : st.sliderValue ≠ pyInt ((st.sliderpos : ℚ) / (L : ℚ) * 100)) :
    (readFromFileStep v gain loadData L st).l = wrapCursor st + 1
    ∧ (readFromFileStep v gain loadData L st).sliderpos
        = st.sliderpos + pyInt ((st.sliderValue : ℚ) * (L : ℚ) / 100 - (st.sliderpos : ℚ)) + 1
    ∧ (∀ i, (readFromFileStep v gain loadData L st).Data i = List.replicate dataWidth 0)
    ∧ (∀ i, (readFromFileStep v gain loadData L st).DataEnvelope i = List.replicate dataWidth 0)
    ∧ (∀ i, (readFromFileStep v gain loadData L st).FFT i = List.replicate 2000 0)
    ∧ (readFromFileStep v gain loadData L st).movAvg = MovingAverage.init fs
    ∧ (readFromFileStep v gain loadData L st).Time
        = (List.replicate dataWidth 0).set (wrapCursor st)
            ((((st.sliderpos + pyInt ((st.sliderValue : ℚ) * (L : ℚ) / 100 - (st.sliderpos : ℚ))) : ℤ) : ℚ) * dt) :=
  readFromFileStep_scrub v gain loadData L st hEOF hdet

/-- C10 witness: on the concrete backward-scrub state the step preserves the
pre-reset write cursor (advancing it by the one stored row) and moves the
playback cursor by the truncated difference plus one. -/
theorem C10_scrub_witness :
    (readFromFileStep MYOstackVersion.v20 gain1 C10load 50 C10state).l
      = wrapCursor C10state + 1
    ∧ (readFromFileStep MYOstackVersion.v20 gain1 C10load 50 C10state).sliderpos
      = C10state.sliderpos
        + pyInt ((C10state.sliderValue : ℚ) * ((50 : ℤ) : ℚ) / 100 - (C10state.sliderpos : ℚ)) + 1 := by
  have h := C10_scrub_amended MYOstackVersion.v20 gain1 C10load 50 C10state
    (by decide)
    (by show (1 : ℤ) ≠ pyInt (((1 : ℤ) : ℚ) / ((50 : ℤ) : ℚ) * 100)
        norm_num [pyInt, Rat.floor])
  exact ⟨h.1, h.2.1⟩

/-- C10 counterexample: with `loadDataLen = 50`, slider value 1 and playback
cursor 1 (a detected backward scrub jump, since the cursor-derived slider
position is 2), the iteration ends with playback cursor 2 — whereas the
claim's `slider_value·loadDataLen/100 = 0.5`, truncated to 0, would end the
iteration at 1.  The code therefore does not set the cursor to
`slider_value·loadDataLen/100`. -/
theorem C10_scrub_counterexample :
    (readFromFileStep MYOstackVersion.v20 gain1 C10load 50 C10state).sliderpos = 2
    ∧ ((2 : ℤ) ≠ pyInt ((1 : ℚ) * 50 / 100) + 1) := by
  have h := readFromFileStep_scrub MYOstackVersion.v20 gain1 C10load 50 C10state
    (by decide)
    (by show (1 : ℤ) ≠ pyInt (((1 : ℤ) : ℚ) / ((50 : ℤ) : ℚ) * 100)
        norm_num [pyInt, Rat.floor])
  constructor
  · rw [h.2.1]
    show (1 : ℤ) + pyInt (((1 : ℤ) : ℚ) * ((50 : ℤ) : ℚ) / 100 - ((1 : ℤ) : ℚ)) + 1 = 2
    norm_num [pyInt, Rat.floor]
  · norm_num [pyInt, Rat.floor]
